import Mathlib

/-!
Verification of the command router, build-time registration generator and
env-var configuration helper of the Rust-Discord-API repository.

The embedding models strings as `List Char` (`Str`), Rust's `HashMap` as an
association list with replace-on-insert semantics, asynchronous `execute`
calls as pure functions returning `Except`, and the observable effects of
`dispatch` (calling a handler's `execute`, printing the "command not found"
line) as an explicit event trace.
-/

namespace RustDiscordApi

/-- Strings are modelled as lists of characters. -/
abbrev Str := List Char

/-- `splitFirstSpace s` returns the characters before the first `' '` and,
when a space exists, the remainder after that single space.  This is the
semantic content of Rust's `content.splitn(2, ' ')` on `&str`. -/
def splitFirstSpace : Str → Str × Option Str
  | [] => ([], none)
  | c :: rest =>
    if c = ' ' then ([], some rest)
    else
      let p := splitFirstSpace rest
      (c :: p.1, p.2)

/-- `splitn2 s` models `s.splitn(2, ' ').collect::<Vec<&str>>()` from
`router.rs` line 135: one part when `s` has no space, otherwise the part
before the first space and everything after it. -/
def splitn2 (s : Str) : List Str :=
  match splitFirstSpace s with
  | (pre, none) => [pre]
  | (pre, some post) => [pre, post]

/-- Lookup in an association list; models `HashMap::get` (`router.rs`
line 139). -/
def lookupAssoc {α : Type} (k : Str) : List (Str × α) → Option α
  | [] => none
  | (k', v) :: rest => if k' = k then some v else lookupAssoc k rest

/-- Insert-or-replace in an association list; models `HashMap::insert`
(`router.rs` line 78): the previous binding of the key, if any, is
replaced, all other bindings are untouched. -/
def insertAssoc {α : Type} (k : Str) (v : α) : List (Str × α) → List (Str × α)
  | [] => [(k, v)]
  | (k', v') :: rest =>
    if k' = k then (k, v) :: rest else (k', v') :: insertAssoc k v rest

/-- The `Command` trait of `router.rs` (lines 11-25): a handler is its
`execute` function taking the HTTP client, the bot token, the channel id and
the argument string, and returning success or a boxed error (modelled by
`Except E Unit`). -/
structure Command (Client E : Type) where
  execute : Client → Str → Str → Str → Except E Unit

/-- Observable effects of one `dispatch` call: invoking a handler's
`execute` with an argument string, or printing the `println!` line of
`router.rs` line 142. -/
inductive Event (Client E : Type) where
  | invoked (cmd : Command Client E) (args : Str)
  | log (msg : Str)

/-- The `CommandRouter` struct (`router.rs` lines 28-30): a map from command
name to shared handler, modelled as an association list with `HashMap`
insert/lookup semantics. -/
structure CommandRouter (Client E : Type) where
  commands : List (Str × Command Client E)

namespace CommandRouter

/-- `CommandRouter::new` (`router.rs` lines 42-46): the empty registry. -/
def new (Client E : Type) : CommandRouter Client E := ⟨[]⟩

/-- `CommandRouter::register_command` (`router.rs` lines 77-79):
`self.commands.insert(name.to_string(), command)`. -/
def register_command (r : CommandRouter Client E) (name : Str)
    (command : Command Client E) : CommandRouter Client E :=
  ⟨insertAssoc name command r.commands⟩

end CommandRouter

/-- Lines 135-137 of `router.rs`: split the content with `splitn(2, ' ')`,
the command name is `parts[0]`, the args are `parts[1]` when present and
`""` otherwise. -/
def parseContent (content : Str) : Str × Str :=
  let parts := splitn2 content
  (parts.getD 0 [], if parts.length > 1 then parts.getD 1 [] else [])

/-- `CommandRouter::dispatch` (`router.rs` lines 134-146).  Returns the
`Result` of the call together with the trace of observable effects: looking
up the parsed command name, it either invokes the found handler's `execute`
(propagating its error through the `?` operator and otherwise returning
`Ok(())`), or prints "Command not found: {name}" and returns `Ok(())`. -/
def CommandRouter.dispatch (r : CommandRouter Client E) (client : Client)
    (token channel_id content : Str) : Except E Unit × List (Event Client E) :=
  let parsed := parseContent content
  let command_name := parsed.1
  let args := parsed.2
  match lookupAssoc command_name r.commands with
  | some command =>
    match command.execute client token channel_id args with
    | .ok _ => (.ok (), [.invoked command args])
    | .error e => (.error e, [.invoked command args])
  | none =>
    (.ok (), [.log (("Command not found: ").data ++ command_name)])

/-! ## Build-time registration generator (`build.rs`) -/

/-- An ordered directory listing as seen by `fs::read_dir` in `build.rs`:
the sequence of entries of one directory, each entry a plain file or a
sub-directory with its own listing. -/
inductive FsForest where
  | nil
  | file (name : Str) (rest : FsForest)
  | dir (name : Str) (children : FsForest) (rest : FsForest)

/-- `s.ends_with(".rs")` specialised to the check on `build.rs` line 47. -/
def endsWithRs (s : Str) : Bool :=
  decide (s.drop (s.length - 3) = ('.' :: 'r' :: 's' :: []))
    && decide (3 ≤ s.length)

/-- `file_name.strip_suffix(".rs").unwrap()` from `build.rs` line 48
(total here: callers only use it after `endsWithRs`). -/
def stripRs (s : Str) : Str :=
  s.take (s.length - 3)

/-- `capitalize_first` from `build.rs` lines 73-79: empty string maps to
empty, otherwise the first character is uppercased and the rest kept.
(Rust's `to_uppercase` on the chars appearing here is the one-character
uppercase map.) -/
def capitalize_first (s : Str) : Str :=
  match s with
  | [] => []
  | f :: rest => f.toUpper :: rest

/-- The `full_mod_name` computation of `build.rs` lines 39-43 and 49-53:
the child name qualified by the parent module path. -/
def fullModName (parent_mod name : Str) : Str :=
  if parent_mod = [] then name else parent_mod ++ (("::").data) ++ name

/-- One `router.register_command("!{module}", Arc::new({path}::{Type}))`
line emitted by `build.rs` lines 55-58, kept as its semantic content: the
command-name string and the constructor path string. -/
structure Registration where
  cmdName : Str
  handlerPath : Str
  deriving DecidableEq

/-- `generate_mod_rs` (`build.rs` lines 30-62), as the ordered list of
registrations it emits: directories are recursed into with the qualified
module path; files ending in `.rs` other than `mod.rs` each emit exactly
one registration `"!{base}" -> {parent::base}::{Capitalized base}`; every
other file emits nothing. -/
def generate_mod_rs (parent_mod : Str) : FsForest → List Registration
  | .nil => []
  | .file name rest =>
    (if endsWithRs name && decide (name ≠ ("mod.rs").data) then
      let module_name := stripRs name
      [⟨'!' :: module_name,
        fullModName parent_mod module_name ++ (("::").data)
          ++ capitalize_first module_name⟩]
     else []) ++ generate_mod_rs parent_mod rest
  | .dir name children rest =>
    generate_mod_rs (fullModName parent_mod name) children
      ++ generate_mod_rs parent_mod rest

/-- `main` of `build.rs` (lines 7-21): when the `src/commands` directory
exists, `commands_mod.rs` is written with the generated registrations
(`some regs`); when it does not exist, nothing at all is written to
`OUT_DIR` (`none`). -/
def buildMain (commandsDirExists : Bool) (commandsDir : FsForest) :
    Option (List Registration) :=
  if commandsDirExists then some (generate_mod_rs [] commandsDir) else none

/-- The outcome of compiling the library crate. -/
inductive BuildOutcome where
  | success (regs : List Registration)
  | compileError (msg : Str)
  deriving DecidableEq

/-- Line 5 of `lib.rs`: `include!(concat!(env!("OUT_DIR"), "/commands_mod.rs"))`.
Rust's `include!` of a file that was never written fails the compilation of
the crate; when the file exists its registrations become the body of
`register_commands`. -/
def includeCommandsMod : Option (List Registration) → BuildOutcome
  | some regs => .success regs
  | none => .compileError (("could not read commands_mod.rs").data)

/-! ## Configuration (`internal/config.rs`) -/

/-- `get_env_var` (`config.rs` lines 17-19): the process environment is a
finite map from variable name to value; `env::var(key).expect(...)` returns
the value when the variable is present and otherwise panics with the
message `"Expected environment variable {key}"` built by the `format!` on
line 18 (`Except.error` models the panic; `expect` appends the underlying
`VarError` after this descriptive text). -/
def get_env_var (env : List (Str × Str)) (key : Str) : Except Str Str :=
  match lookupAssoc key env with
  | some v => .ok v
  | none => .error ((("Expected environment variable ").data) ++ key)

/-! ## Sequences of registry operations -/

/-- One operation a host can perform on a `CommandRouter`: a
`register_command` call or a `dispatch` call. -/
inductive RouterOp (Client E : Type) where
  | register (name : Str) (cmd : Command Client E)
  | dispatch (client : Client) (token channel_id content : Str)

/-- The registry state after one operation.  `register_command` takes
`&mut self` and inserts (`router.rs` line 78); `dispatch` takes `&self`
(`router.rs` line 134) and therefore cannot change the map. -/
def applyOp (r : CommandRouter Client E) : RouterOp Client E → CommandRouter Client E
  | .register n c => r.register_command n c
  | .dispatch _ _ _ _ => r

/-- The registry state after a sequence of operations. -/
def runOps (r : CommandRouter Client E) (ops : List (RouterOp Client E)) :
    CommandRouter Client E :=
  ops.foldl applyOp r

/-! ## Concrete handlers used in witnesses and counterexamples -/

/-- A handler whose `execute` always succeeds, like the `PingCommand` of the
doc-example in `router.rs`. -/
def okHandler : Command Unit Str := ⟨fun _ _ _ _ => .ok ()⟩

/-- A handler whose `execute` always fails with a boxed error. -/
def errHandler : Command Unit Str := ⟨fun _ _ _ _ => .error (("boom").data)⟩

/-- The source units a directory tree makes the generator discover, stated
from the claim's words: every file whose name ends in `.rs` except the
namespace-root `mod.rs`, recursively, each listed with its
namespace-qualified module path and its base name (used for the refinement
proof of the generator contract). -/
def discoveredUnits (parent_mod : Str) : FsForest → List (Str × Str)
  | .nil => []
  | .file name rest =>
    (if endsWithRs name && decide (name ≠ ("mod.rs").data) then
      [(fullModName parent_mod (stripRs name), stripRs name)] else [])
      ++ discoveredUnits parent_mod rest
  | .dir name children rest =>
    discoveredUnits (fullModName parent_mod name) children
      ++ discoveredUnits parent_mod rest

/-! ## Lemmas about splitting -/

theorem splitFirstSpace_of_no_space {s : Str} (h : ' ' ∉ s) :
    splitFirstSpace s = (s, none) := by
  induction s with
  | nil => rfl
  | cons c rest ih =>
    have hc : ¬ c = ' ' := fun hh => h (hh ▸ List.mem_cons_self c rest)
    have hr : ' ' ∉ rest := fun hh => h (List.mem_cons_of_mem c hh)
    simp [splitFirstSpace, hc, ih hr]

theorem splitFirstSpace_append_space {pre : Str} (post : Str) (h : ' ' ∉ pre) :
    splitFirstSpace (pre ++ ' ' :: post) = (pre, some post) := by
  induction pre with
  | nil => simp [splitFirstSpace]
  | cons c rest ih =>
    have hc : ¬ c = ' ' := fun hh => h (hh ▸ List.mem_cons_self c rest)
    have hr : ' ' ∉ rest := fun hh => h (List.mem_cons_of_mem c hh)
    simp [splitFirstSpace, hc, ih hr]

theorem splitn2_ne_nil (s : Str) : splitn2 s ≠ [] := by
  unfold splitn2
  rcases hs : splitFirstSpace s with ⟨pre, post⟩
  cases post <;> simp

theorem parseContent_of_no_space {s : Str} (h : ' ' ∉ s) :
    parseContent s = (s, []) := by
  simp [parseContent, splitn2, splitFirstSpace_of_no_space h]

theorem parseContent_append_space {pre : Str} (post : Str) (h : ' ' ∉ pre) :
    parseContent (pre ++ ' ' :: post) = (pre, post) := by
  simp [parseContent, splitn2, splitFirstSpace_append_space post h]

/-! ## Lemmas about the association-list map -/

theorem lookupAssoc_insertAssoc_self {α : Type} (k : Str) (v : α)
    (l : List (Str × α)) : lookupAssoc k (insertAssoc k v l) = some v := by
  induction l with
  | nil => simp [insertAssoc, lookupAssoc]
  | cons p rest ih =>
    rcases p with ⟨k', v'⟩
    by_cases hk : k' = k
    · simp [insertAssoc, hk, lookupAssoc]
    · simp [insertAssoc, hk, lookupAssoc, ih]

theorem lookupAssoc_insertAssoc_of_ne {α : Type} {m k : Str} (v : α)
    (l : List (Str × α)) (hmk : m ≠ k) :
    lookupAssoc m (insertAssoc k v l) = lookupAssoc m l := by
  have hkm : ¬ k = m := fun hh => hmk (Eq.symm hh)
  induction l with
  | nil => simp [insertAssoc, lookupAssoc, hkm]
  | cons p rest ih =>
    rcases p with ⟨k', v'⟩
    by_cases hk : k' = k
    · subst hk
      simp [insertAssoc, lookupAssoc, hkm]
    · by_cases hm : k' = m
      · subst hm
        simp [insertAssoc, hk, lookupAssoc]
      · simp [insertAssoc, hk, lookupAssoc, hm, ih]

theorem insertAssoc_insertAssoc_same {α : Type} (k : Str) (v1 v2 : α)
    (l : List (Str × α)) :
    insertAssoc k v2 (insertAssoc k v1 l) = insertAssoc k v2 l := by
  induction l with
  | nil => simp [insertAssoc]
  | cons p rest ih =>
    rcases p with ⟨k', v'⟩
    by_cases hk : k' = k
    · simp [insertAssoc, hk]
    · simp [insertAssoc, hk, ih]

theorem lookupAssoc_insertAssoc_isSome {α : Type} {m : Str} (k : Str)
    (v : α) (l : List (Str × α)) (hm : lookupAssoc m l ≠ none) :
    lookupAssoc m (insertAssoc k v l) ≠ none := by
  by_cases hmk : m = k
  · subst hmk
    simp [lookupAssoc_insertAssoc_self]
  · rw [lookupAssoc_insertAssoc_of_ne v l hmk]
    exact hm

/-! ## Lemmas characterising `dispatch` -/

theorem dispatch_found {Client E : Type} {r : CommandRouter Client E}
    {name : Str} {h : Command Client E} (client : Client)
    (token channel_id : Str) {content : Str}
    (hp : (parseContent content).1 = name)
    (hl : lookupAssoc name r.commands = some h) :
    r.dispatch client token channel_id content
      = (h.execute client token channel_id (parseContent content).2,
         [Event.invoked h (parseContent content).2]) := by
  have hl' : lookupAssoc (parseContent content).1 r.commands = some h := by
    rw [hp]; exact hl
  simp only [CommandRouter.dispatch, hl']
  rcases hx : h.execute client token channel_id (parseContent content).2 with e | u
  · simp [hx]
  · cases u; simp [hx]

theorem dispatch_not_found {Client E : Type} {r : CommandRouter Client E}
    (client : Client) (token channel_id : Str) {content : Str}
    (hl : lookupAssoc (parseContent content).1 r.commands = none) :
    r.dispatch client token channel_id content
      = (.ok (), [.log ((("Command not found: ").data)
          ++ (parseContent content).1)]) := by
  simp only [CommandRouter.dispatch, hl]

theorem errHandler_ne_okHandler : errHandler ≠ okHandler := by
  intro heq
  have h2 := congrArg (fun c => c.execute () [] [] []) heq
  simp [errHandler, okHandler] at h2

/-! ## The claims -/

/-- C1 (amended): for every command name `n` containing no space character,
every handler `h` and argument string `args`, after `register_command n h`
dispatch of `n ++ " " ++ args` invokes exactly `h.execute` with argument
string exactly `args`, and dispatch of exactly `n` invokes `h.execute` with
the empty argument string. -/
theorem C1_register_then_dispatch {Client E : Type} (r0 : CommandRouter Client E)
    (n : Str) (h : Command Client E) (args : Str) (client : Client)
    (token channel_id : Str) (hn : ' ' ∉ n) :
    ((r0.register_command n h).dispatch client token channel_id
        (n ++ ' ' :: args)).2 = [Event.invoked h args]
    ∧ ((r0.register_command n h).dispatch client token channel_id n).2
        = [Event.invoked h []] := by
  have hl : lookupAssoc n (r0.register_command n h).commands = some h :=
    lookupAssoc_insertAssoc_self n h r0.commands
  have hp1 := parseContent_append_space args hn
  have hp2 := parseContent_of_no_space hn
  have hpa : (parseContent (n ++ ' ' :: args)).1 = n := by rw [hp1]
  have hpb : (parseContent n).1 = n := by rw [hp2]
  constructor
  · have hd := dispatch_found client token channel_id hpa hl
    rw [hd, hp1]
  · have hd := dispatch_found client token channel_id hpb hl
    rw [hd, hp2]

/-- C1 witness: registering `"!ping"` and dispatching `"!ping x y"` invokes
the handler with argument string `"x y"`. -/
theorem C1_witness :
    (((CommandRouter.new Unit Str).register_command (("!ping").data)
        okHandler).dispatch () [] []
        ((("!ping").data) ++ ' ' :: (("x y").data))).2
      = [Event.invoked okHandler (("x y").data)] :=
  (C1_register_then_dispatch (CommandRouter.new Unit Str) (("!ping").data)
    okHandler (("x y").data) () [] [] (by decide)).1

/-- C1 counterexample: the claim quantifies over every command name, but for
a name containing a space the registered handler is never invoked: after
registering `"a b"`, dispatching `"a b" ++ " " ++ "x"` parses the command
token `"a"`, finds nothing, and invokes no handler. -/
theorem C1_counterexample :
    Event.invoked okHandler (("x").data) ∉
      (((CommandRouter.new Unit Str).register_command (("a b").data)
          okHandler).dispatch () [] []
          ((("a b").data) ++ ' ' :: (("x").data))).2 := by
  intro hmem
  have hev : (((CommandRouter.new Unit Str).register_command (("a b").data)
      okHandler).dispatch () [] []
      ((("a b").data) ++ ' ' :: (("x").data))).2
      = [Event.log (("Command not found: a").data)] := rfl
  rw [hev] at hmem
  simp at hmem

/-- C2 (amended): dispatch splits its input at the first space character
(`' '`) only: the command token is the substring before the first space and
the argument string is everything after that single space — later spaces,
including immediately following ones, stay in the argument string; when the
input has no space the whole input is the command token and the argument
string is empty.  In particular `"!echo hello world"` parses to command
`"!echo"` and argument `"hello world"`. -/
theorem C2_split_at_first_space :
    (∀ pre post : Str, ' ' ∉ pre →
      parseContent (pre ++ ' ' :: post) = (pre, post))
    ∧ (∀ s : Str, ' ' ∉ s → parseContent s = (s, []))
    ∧ parseContent (("!echo hello world").data)
        = ((("!echo").data), (("hello world").data)) := by
  refine ⟨fun pre post hpre => parseContent_append_space post hpre,
    fun s hs => parseContent_of_no_space hs, by decide⟩

/-- C2 witness: parsing `"!a b c"` yields command `"!a"` and argument
string `"b c"`. -/
theorem C2_witness :
    parseContent (("!a").data ++ ' ' :: ("b c").data)
      = ((("!a").data), (("b c").data)) :=
  C2_split_at_first_space.1 (("!a").data) (("b c").data) (by decide)

/-- C2 counterexample: the claim says splitting is on the first whitespace
run, with the argument string starting after the whole run; but the code
splits at the first single space only, so `"!echo  hello"` (two spaces)
parses to argument string `" hello"`, not `"hello"`. -/
theorem C2_counterexample :
    (parseContent (("!echo  hello").data)).2 ≠ ("hello").data
    ∧ (parseContent (("!echo  hello").data)).2 = (" hello").data := by
  decide

/-- C3 (confirmed): whenever the parsed command token is not a key of the
registry, dispatch returns `Ok(())` and invokes no handler at all — it only
logs the "Command not found" line. -/
theorem C3_unmatched_is_success {Client E : Type} (r : CommandRouter Client E)
    (client : Client) (token channel_id content : Str)
    (hfind : lookupAssoc (parseContent content).1 r.commands = none) :
    (r.dispatch client token channel_id content).1 = .ok ()
    ∧ ∀ (c : Command Client E) (a : Str),
        Event.invoked c a ∉ (r.dispatch client token channel_id content).2 := by
  rw [dispatch_not_found client token channel_id hfind]
  exact ⟨rfl, by intro c a hmem; simp at hmem⟩

/-- C3 witness: dispatching `"!nope"` on the empty registry succeeds. -/
theorem C3_witness :
    ((CommandRouter.new Unit Str).dispatch () [] [] (("!nope").data)).1
      = .ok () :=
  (C3_unmatched_is_success (CommandRouter.new Unit Str) () [] []
    (("!nope").data) rfl).1

/-- C4 (confirmed): when the parsed command token is registered to handler
`h`, dispatch returns exactly the result of `h.execute` on the shared
client, token, channel and parsed argument string: errors pass through
unchanged and success maps to success. -/
theorem C4_error_passthrough {Client E : Type} (r : CommandRouter Client E)
    (n : Str) (h : Command Client E) (client : Client)
    (token channel_id content : Str)
    (hp : (parseContent content).1 = n)
    (hl : lookupAssoc n r.commands = some h) :
    (r.dispatch client token channel_id content).1
      = h.execute client token channel_id (parseContent content).2
    ∧ (∀ e, (r.dispatch client token channel_id content).1 = .error e
        ↔ h.execute client token channel_id (parseContent content).2 = .error e)
    ∧ ((r.dispatch client token channel_id content).1 = .ok ()
        ↔ h.execute client token channel_id (parseContent content).2 = .ok ()) := by
  have hd := dispatch_found client token channel_id hp hl
  rw [hd]
  exact ⟨rfl, fun e => Iff.rfl, Iff.rfl⟩

/-- C4 witness: a handler failing with `"boom"` makes the dispatch of its
command return exactly that error. -/
theorem C4_witness :
    (((CommandRouter.new Unit Str).register_command (("!f").data)
        errHandler).dispatch () [] [] (("!f x").data)).1
      = errHandler.execute () [] [] (("x").data) :=
  (C4_error_passthrough _ (("!f").data) errHandler () [] [] (("!f x").data)
    (by decide) (lookupAssoc_insertAssoc_self _ _ _)).1

/-- C5 (confirmed): registering `n ↦ h1` and then `n ↦ h2` on the same
registry yields exactly the registry obtained by registering `n ↦ h2`
alone; dispatching any content whose command token is `n` invokes `h2` with
the parsed arguments, and (when `h1 ≠ h2`) never invokes `h1`. -/
theorem C5_last_registration_wins {Client E : Type}
    (r : CommandRouter Client E) (n : Str) (h1 h2 : Command Client E)
    (client : Client) (token channel_id content : Str)
    (hp : (parseContent content).1 = n) :
    ((r.register_command n h1).register_command n h2
        = r.register_command n h2)
    ∧ (((r.register_command n h1).register_command n h2).dispatch client
        token channel_id content).2
        = [Event.invoked h2 (parseContent content).2]
    ∧ (h1 ≠ h2 → ∀ a, Event.invoked h1 a ∉
        (((r.register_command n h1).register_command n h2).dispatch client
          token channel_id content).2) := by
  have heq : (r.register_command n h1).register_command n h2
      = r.register_command n h2 := by
    show (⟨insertAssoc n h2 (insertAssoc n h1 r.commands)⟩ :
        CommandRouter Client E) = ⟨insertAssoc n h2 r.commands⟩
    rw [insertAssoc_insertAssoc_same]
  have hl : lookupAssoc n
      ((r.register_command n h1).register_command n h2).commands = some h2 :=
    lookupAssoc_insertAssoc_self n h2 _
  have hd := dispatch_found client token channel_id hp hl
  refine ⟨heq, by rw [hd], fun hne a hmem => ?_⟩
  rw [hd] at hmem
  simp at hmem
  exact hne hmem.1

/-- C5 witness: after registering `"!f" ↦ errHandler` then
`"!f" ↦ okHandler`, dispatching `"!f x"` never invokes `errHandler`. -/
theorem C5_witness :
    Event.invoked errHandler (("x").data) ∉
      ((((CommandRouter.new Unit Str).register_command (("!f").data)
          errHandler).register_command (("!f").data) okHandler).dispatch
        () [] [] (("!f x").data)).2 :=
  (C5_last_registration_wins (CommandRouter.new Unit Str) (("!f").data)
    errHandler okHandler () [] [] (("!f x").data) (by decide)).2.2
    errHandler_ne_okHandler (("x").data)

/-- C8 (confirmed): `get_env_var` on an absent key aborts (modelled as
`Except.error`) with the descriptive message
`"Expected environment variable {key}"`, which names the key; on a present
key it returns the key's value. -/
theorem C8_get_env_var (env : List (Str × Str)) (key : Str) :
    (lookupAssoc key env = none →
      get_env_var env key
        = .error ((("Expected environment variable ").data) ++ key))
    ∧ ∀ v, lookupAssoc key env = some v → get_env_var env key = .ok v := by
  constructor
  · intro habs
    simp [get_env_var, habs]
  · intro v hv
    simp [get_env_var, hv]

/-- C8 witness: the absent variable `DISCORD_TOKEN` aborts with the message
naming it. -/
theorem C8_witness :
    get_env_var [] (("DISCORD_TOKEN").data)
      = .error ((("Expected environment variable ").data)
          ++ (("DISCORD_TOKEN").data)) :=
  (C8_get_env_var [] (("DISCORD_TOKEN").data)).1 rfl

/-- C9 (confirmed): over any sequence of `register_command` and `dispatch`
operations the set of registered names only grows; a `dispatch` leaves the
registry unchanged; and `register_command n h` maps `n` to `h` while
leaving the binding of every other name unchanged. -/
theorem C9_registry_monotone {Client E : Type} :
    (∀ (r : CommandRouter Client E) (ops : List (RouterOp Client E))
        (n : Str), lookupAssoc n r.commands ≠ none →
        lookupAssoc n (runOps r ops).commands ≠ none)
    ∧ (∀ (r : CommandRouter Client E) (client : Client)
        (token channel_id content : Str),
        applyOp r (.dispatch client token channel_id content) = r)
    ∧ (∀ (r : CommandRouter Client E) (n : Str) (h : Command Client E)
        (m : Str), m ≠ n →
        lookupAssoc m (r.register_command n h).commands
          = lookupAssoc m r.commands)
    ∧ (∀ (r : CommandRouter Client E) (n : Str) (h : Command Client E),
        lookupAssoc n (r.register_command n h).commands = some h) := by
  refine ⟨fun r ops => ?_, fun r client token channel_id content => rfl,
    fun r n h m hmn => lookupAssoc_insertAssoc_of_ne h r.commands hmn,
    fun r n h => lookupAssoc_insertAssoc_self n h r.commands⟩
  induction ops generalizing r with
  | nil => intro n hn; exact hn
  | cons op rest ih =>
    intro n hn
    have hstep : lookupAssoc n (applyOp r op).commands ≠ none := by
      cases op with
      | register k c => exact lookupAssoc_insertAssoc_isSome k c r.commands hn
      | dispatch client token channel_id content => exact hn
    exact ih (applyOp r op) n hstep

/-- C9 witness: a name registered on the fresh router survives a further
registration and a dispatch. -/
theorem C9_witness :
    lookupAssoc (("!a").data)
      (runOps ((CommandRouter.new Unit Str).register_command (("!a").data)
          okHandler)
        [RouterOp.register (("!b").data) okHandler,
         RouterOp.dispatch () [] [] (("!a").data)]).commands ≠ none :=
  C9_registry_monotone.1
    ((CommandRouter.new Unit Str).register_command (("!a").data) okHandler)
    [RouterOp.register (("!b").data) okHandler,
     RouterOp.dispatch () [] [] (("!a").data)]
    (("!a").data)
    (by simp [CommandRouter.new, CommandRouter.register_command, insertAssoc,
      lookupAssoc])

/-- C10 (confirmed): parsing is total — `splitn(2, ' ')` always yields at
least one part, so taking `parts[0]` never fails — and dispatching the
empty string looks up the empty command name; when it is unregistered the
call returns `Ok(())` and invokes no handler. -/
theorem C10_parse_total :
    (∀ s : Str, splitn2 s ≠ [])
    ∧ (∀ s : Str, (parseContent s).1 = (splitn2 s).getD 0 [])
    ∧ (∀ (Client E : Type) (r : CommandRouter Client E) (client : Client)
        (token channel_id : Str),
        lookupAssoc ((parseContent []).1) r.commands = none →
        (r.dispatch client token channel_id []).1 = .ok ()
        ∧ ∀ (c : Command Client E) (a : Str),
            Event.invoked c a ∉ (r.dispatch client token channel_id []).2) := by
  refine ⟨splitn2_ne_nil, fun s => rfl,
    fun Client E r client token channel_id hl => ?_⟩
  rw [dispatch_not_found client token channel_id hl]
  exact ⟨rfl, by intro c a hmem; simp at hmem⟩

/-- C10 witness: dispatching the empty string on the fresh router returns
success. -/
theorem C10_witness :
    ((CommandRouter.new Unit Str).dispatch () [] [] []).1 = .ok () :=
  (C10_parse_total.2.2 Unit Str (CommandRouter.new Unit Str) () [] [] rfl).1

/-- C6 (amended): the generator emits exactly one registration per
discovered source unit (files ending in `.rs`, excluding the reserved
namespace-root `mod.rs`), in discovery order; the command name is `"!"`
prepended to the unit's base name, and the handler constructor path is the
unit's namespace-qualified module path — which ends in the module named
after the file itself — joined with the base name with its first character
capitalized.  In particular a directory containing `ping.rs` and
`mod/deep.rs` yields exactly `"!ping" -> ping::Ping` and
`"!deep" -> mod::deep::Deep`. -/
theorem C6_generator_contract :
    (∀ (parent_mod : Str) (f : FsForest),
      generate_mod_rs parent_mod f
        = (discoveredUnits parent_mod f).map
            (fun u => ⟨'!' :: u.2,
              u.1 ++ (("::").data) ++ capitalize_first u.2⟩))
    ∧ generate_mod_rs []
        (.file (("ping.rs").data)
          (.dir (("mod").data) (.file (("deep.rs").data) .nil) .nil))
        = [⟨("!ping").data, ("ping::Ping").data⟩,
           ⟨("!deep").data, ("mod::deep::Deep").data⟩] := by
  constructor
  · intro parent_mod f
    induction f generalizing parent_mod with
    | nil => rfl
    | file name rest ih =>
      simp only [generate_mod_rs, discoveredUnits, List.map_append, ih]
      congr 1
      split <;> simp
    | dir name children rest ihc ihr =>
      simp [generate_mod_rs, discoveredUnits, ihc, ihr]
  · decide

/-- C6 counterexample: on the directory containing `ping.rs` and
`mod/deep.rs` the generator does not emit the registration set
`"!ping" -> Ping`, `"!deep" -> mod::Deep` claimed by the spec: the emitted
constructor paths also contain the module named after the file
(`ping::Ping` and `mod::deep::Deep`). -/
theorem C6_counterexample :
    generate_mod_rs []
        (.file (("ping.rs").data)
          (.dir (("mod").data) (.file (("deep.rs").data) .nil) .nil))
      ≠ [⟨("!ping").data, ("Ping").data⟩,
         ⟨("!deep").data, ("mod::Deep").data⟩] := by
  decide

/-- C7: the code violates the claim.  When the command directory does not
exist at build time, `build.rs` skips generation and writes no
`commands_mod.rs` at all, so the unconditional
`include!(concat!(env!("OUT_DIR"), "/commands_mod.rs"))` on line 5 of
`lib.rs` fails the compilation of the crate on a clean build: registry
construction does not succeed — there is no empty registration set, there
is a build error. -/
theorem C7_missing_dir_fails_build (commandsDir : FsForest) :
    buildMain false commandsDir = none
    ∧ includeCommandsMod (buildMain false commandsDir)
        = .compileError (("could not read commands_mod.rs").data)
    ∧ ∀ regs, includeCommandsMod (buildMain false commandsDir)
        ≠ .success regs := by
  refine ⟨rfl, rfl, fun regs h => ?_⟩
  simp [buildMain, includeCommandsMod] at h

end RustDiscordApi
